import Mathlib

/-!
Shallow embedding of the disease-prediction decision engine and the weather
risk analyzer of the crop-disease application
(`Backend/utils/weatherService.js` and `Backend/routes/diseaseRoutes.js`).

JavaScript numbers are modelled as rationals, JavaScript strings as `String`.
Asynchronous calls to collaborators (the document store, the external AI
model, the weather API) are modelled by passing their outcome in as an
explicit argument (`Except Unit _` for calls that can fail, a plain list for
the store read).  Fields of the JavaScript objects that no claim mentions
(free-text `message`/`conditions` payloads, the `factors` explainability
strings, the `details` block of the prediction response) are omitted from
the records; all control flow and arithmetic is kept.
-/

namespace CropDisease

/-- Checks whether `sub` occurs at the start of `l` (helper for the embedding
of `String.prototype.includes`). -/
def charsStartWith : List Char → List Char → Bool
  | [], _ => true
  | _ :: _, [] => false
  | a :: as, b :: bs => a == b && charsStartWith as bs

/-- JavaScript `haystack.includes(needle)` on the underlying character lists. -/
def charsContain : List Char → List Char → Bool
  | [], sub => sub.isEmpty
  | a :: t, sub => charsStartWith sub (a :: t) || charsContain t sub

/-- JavaScript `s.includes(sub)`. -/
def jsIncludes (s sub : String) : Bool :=
  charsContain s.data sub.data

/-- JavaScript `s.toLowerCase()` (ASCII, which covers every string the code
compares). -/
def jsToLower (s : String) : String :=
  ⟨s.data.map Char.toLower⟩

/-- A weather reading as consumed by `analyzeWeatherRisk`: `temperature`,
`humidity` and the `weather.main` condition text. -/
structure WeatherReading where
  temperature : ℚ
  humidity : ℚ
  condition : String
deriving DecidableEq, Repr

/-- One entry of the `risks` array built by `analyzeWeatherRisk`
(`weatherService.js`).  The free-text `message` and the `conditions` debug
payload are omitted. -/
structure RiskEntry where
  type : String
  level : String
deriving DecidableEq, Repr

def highHumidityRisk : RiskEntry := ⟨"high-humidity", "high"⟩
def heatStressRisk : RiskEntry := ⟨"heat-stress", "medium"⟩
def coldStressRisk : RiskEntry := ⟨"cold-stress", "medium"⟩
def wetConditionsRisk : RiskEntry := ⟨"wet-conditions", "high"⟩
def droughtStressRisk : RiskEntry := ⟨"drought-stress", "medium"⟩
def optimalRisk : RiskEntry := ⟨"optimal", "low"⟩

/-- The risk entries pushed by the four independent condition checks of
`analyzeWeatherRisk` (`weatherService.js`, lines 223-271); heat and cold
stress sit in one `if`/`else if` chain. -/
def firedRisks (w : WeatherReading) : List RiskEntry :=
  (if w.humidity > 80 then [highHumidityRisk] else [])
  ++ (if w.temperature > 35 then [heatStressRisk]
      else if w.temperature < 10 then [coldStressRisk] else [])
  ++ (if jsIncludes w.condition "Rain" ∧ w.humidity > 70 then [wetConditionsRisk] else [])
  ++ (if w.humidity < 30 ∧ jsIncludes w.condition "Rain" = false then [droughtStressRisk] else [])

/-- The final `risks` array: when nothing fired, the synthetic `optimal`
entry is pushed onto the same array
(`weatherService.js`, lines 273-281). -/
def riskList (w : WeatherReading) : List RiskEntry :=
  let risks := firedRisks w
  if risks.isEmpty then [optimalRisk] else risks

/-- Recommendation strings appended per risk type by the `switch` in
`generateWeatherRecommendations`; the `default` arm covers `optimal` and
anything unrecognised (`weatherService.js`, lines 294-324). -/
def switchRecommendationsFor (t : String) : List String :=
  if t = "high-humidity" then
    ["Ensure good air circulation around plants",
     "Avoid overhead watering",
     "Apply preventive fungicide if necessary"]
  else if t = "heat-stress" then
    ["Provide shade during hottest parts of the day",
     "Increase watering frequency",
     "Monitor for increased pest activity"]
  else if t = "cold-stress" then
    ["Protect plants from frost",
     "Reduce watering frequency",
     "Consider using row covers"]
  else if t = "wet-conditions" then
    ["Improve drainage around plants",
     "Remove infected plant material promptly",
     "Apply preventive copper-based fungicides"]
  else if t = "drought-stress" then
    ["Increase irrigation frequency",
     "Apply mulch to conserve soil moisture",
     "Monitor for spider mites and aphids"]
  else
    ["Continue regular monitoring and care"]

/-- JavaScript `[...new Set(l)]`: removes duplicates keeping the first
occurrence of each element. -/
def dedupFirst (seen : List String) : List String → List String
  | [] => []
  | x :: xs => if x ∈ seen then dedupFirst seen xs else x :: dedupFirst (x :: seen) xs

/-- `generateWeatherRecommendations` (`weatherService.js`, lines 291-328):
push the per-type strings for each risk in order, then deduplicate via a
`Set`. -/
def generateWeatherRecommendations (risks : List RiskEntry) : List String :=
  dedupFirst [] (risks.flatMap fun r => switchRecommendationsFor r.type)

/-- Result record of `analyzeWeatherRisk`. -/
structure RiskAssessment where
  overallRisk : String
  risks : List RiskEntry
  recommendations : List String
deriving DecidableEq, Repr

/-- `analyzeWeatherRisk` (`weatherService.js`, lines 220-288).  Note the
`overallRisk` ternary is evaluated on the array that already holds the
synthetic `optimal` entry when nothing fired. -/
def analyzeWeatherRisk (w : WeatherReading) : RiskAssessment :=
  let risks := riskList w
  { overallRisk :=
      if risks.length > 2 then "high"
      else if risks.length > 0 then "medium"
      else "low"
    risks := risks
    recommendations := generateWeatherRecommendations risks }

/-- One agricultural alert (`getAgricultureAlerts`); the interpolated
`message`, `details` and per-alert `recommendations` payloads are omitted. -/
structure AgAlert where
  type : String
  severity : String
deriving DecidableEq, Repr

/-- Result shape of `getAgricultureAlerts` (location and timestamps
omitted). -/
structure AlertsResult where
  alertCount : Nat
  alerts : List AgAlert
deriving DecidableEq, Repr

/-- The conservative reading substituted when current-weather retrieval
fails (`weatherService.js`, lines 340-345). -/
def fallbackCurrentWeather : WeatherReading := ⟨25, 60, "Clear"⟩

/-- The pure alert composition of `getAgricultureAlerts`
(`weatherService.js`, lines 331-417).  The two retrievals are passed in as
outcomes: a failed current-weather retrieval is replaced by
`fallbackCurrentWeather`, a failed forecast retrieval by the empty forecast.
The loop over `forecast.slice(0, 24)` with early `break` is the existential
scan `List.any` over `List.take 24`; the `forecast.length > 0` guard is
subsumed because an empty slice fires nothing. -/
def composeAgricultureAlerts (currentResult : Except Unit WeatherReading)
    (forecastResult : Except Unit (List WeatherReading)) : AlertsResult :=
  let currentWeather := match currentResult with
    | .ok w => w
    | .error _ => fallbackCurrentWeather
  let forecastList := match forecastResult with
    | .ok l => l
    | .error _ => []
  let currentRisk := analyzeWeatherRisk currentWeather
  let currentAlerts : List AgAlert :=
    if currentRisk.overallRisk ≠ "low" then
      [{ type := "current-weather", severity := currentRisk.overallRisk }]
    else []
  let hasUpcomingRisk :=
    (forecastList.take 24).any fun item => (analyzeWeatherRisk item).overallRisk == "high"
  let forecastAlerts : List AgAlert :=
    if hasUpcomingRisk then [{ type := "forecast-warning", severity := "medium" }] else []
  let alerts := currentAlerts ++ forecastAlerts
  { alertCount := alerts.length, alerts := alerts }

/-- A knowledge-base entry as read by the scorer (`diseaseRoutes.js`).
Only the fields the scoring rules inspect are kept: `name` and `causes`;
the carried-through `symptoms`, `treatments` and `severity` payloads are
omitted. -/
structure DiseaseRecord where
  name : String
  causes : List String
deriving DecidableEq, Repr

def earlyBlightEntry : DiseaseRecord :=
  ⟨"Early Blight", ["fungal infection", "alternaria solani", "warm humid conditions"]⟩
def lateBlightEntry : DiseaseRecord :=
  ⟨"Late Blight", ["phytophthora infestans", "cool wet weather", "high humidity"]⟩
def bacterialSpeckEntry : DiseaseRecord :=
  ⟨"Bacterial Speck", ["pseudomonas syringae", "cool wet conditions", "wind-driven rain"]⟩
def riceBlastEntry : DiseaseRecord :=
  ⟨"Rice Blast", ["fungal infection", "high humidity", "warm temperature"]⟩
def brownSpotEntry : DiseaseRecord :=
  ⟨"Brown Spot", ["fungal infection", "nutrient deficiency", "drought stress"]⟩
def generalDiseaseEntry : DiseaseRecord :=
  ⟨"General Plant Disease", ["various pathogens", "environmental stress"]⟩

/-- `getFallbackDiseases` (`diseaseRoutes.js`, lines 189-241): static
catalog for `tomato` and `rice`, one generic entry otherwise. -/
def getFallbackDiseases (cropType : String) : List DiseaseRecord :=
  if jsToLower cropType = "tomato" then
    [earlyBlightEntry, lateBlightEntry, bacterialSpeckEntry]
  else if jsToLower cropType = "rice" then
    [riceBlastEntry, brownSpotEntry]
  else
    [generalDiseaseEntry]

/-- `getBaseConfidence` (`diseaseRoutes.js`, lines 166-186): static table
keyed by lower-cased crop type and disease name, defaulting to `0.35`. -/
def getBaseConfidence (diseaseName cropType : String) : ℚ :=
  if jsToLower cropType = "tomato" then
    if diseaseName = "Early Blight" then 0.6
    else if diseaseName = "Late Blight" then 0.55
    else if diseaseName = "Bacterial Speck" then 0.45
    else if diseaseName = "Anthracnose" then 0.5
    else if diseaseName = "Septoria Leaf Spot" then 0.45
    else if diseaseName = "Bacterial Wilt" then 0.4
    else 0.35
  else if jsToLower cropType = "rice" then
    if diseaseName = "Rice Blast" then 0.65
    else if diseaseName = "Brown Spot" then 0.55
    else if diseaseName = "Bacterial Blight" then 0.6
    else if diseaseName = "Sheath Blight" then 0.5
    else if diseaseName = "Tungro Virus" then 0.4
    else 0.35
  else 0.35

/-- `disease.causes.join(' ').toLowerCase()` from `getWeatherScore`. -/
def causesText (d : DiseaseRecord) : String :=
  jsToLower (String.intercalate " " d.causes)

/-- High-humidity rule of `getWeatherScore` (`diseaseRoutes.js`,
lines 116-121). -/
def humidityScore (d : DiseaseRecord) (w : WeatherReading) : ℚ :=
  if w.humidity > 70 ∧
      (jsIncludes (causesText d) "fungal" = true ∨ jsIncludes (causesText d) "humid" = true ∨
       jsIncludes (causesText d) "moisture" = true ∨ jsIncludes (jsToLower d.name) "blight" = true)
  then 0.15 else 0

/-- Warm-temperature rule of `getWeatherScore` (`diseaseRoutes.js`,
lines 124-128). -/
def warmRangeScore (d : DiseaseRecord) (w : WeatherReading) : ℚ :=
  if w.temperature > 25 ∧ w.temperature < 35 ∧
      (jsIncludes (causesText d) "warm" = true ∨ jsIncludes (jsToLower d.name) "blast" = true)
  then 0.1 else 0

/-- Cool-wet rule of `getWeatherScore` (`diseaseRoutes.js`,
lines 131-135). -/
def coolWetScore (d : DiseaseRecord) (w : WeatherReading) : ℚ :=
  if w.temperature < 20 ∧ w.humidity > 80 ∧
      (jsIncludes (jsToLower d.name) "late blight" = true ∨ jsIncludes (causesText d) "cool" = true)
  then 0.2 else 0

/-- `getWeatherScore` (`diseaseRoutes.js`, lines 107-138): the three
independent rules are summed; without a weather reading the score is `0`. -/
def getWeatherScore (d : DiseaseRecord) : Option WeatherReading → ℚ
  | none => 0
  | some w => humidityScore d w + warmRangeScore d w + coolWetScore d w

/-- `getSeasonalScore` (`diseaseRoutes.js`, lines 141-163).  The JavaScript
guard `!weather.temperature` also rejects a temperature equal to `0`
(falsy), which is kept here. -/
def getSeasonalScore (d : DiseaseRecord) : Option WeatherReading → ℚ
  | none => 0
  | some w =>
    if w.temperature = 0 then 0
    else
      (if w.temperature > 30 ∧
          (jsIncludes (jsToLower d.name) "bacterial" = true ∨ jsIncludes (jsToLower d.name) "wilt" = true)
       then 0.1 else 0)
      + (if w.temperature > 20 ∧ w.temperature < 30 ∧ w.humidity > 60 ∧
          (jsIncludes (jsToLower d.name) "blight" = true ∨ jsIncludes (jsToLower d.name) "spot" = true ∨
           jsIncludes (jsToLower d.name) "blast" = true)
         then 0.1 else 0)

/-- A scored candidate (the record built per disease in
`performAdvancedRuleBasedPrediction`); only the `name` and `confidence`
fields any claim mentions are kept. -/
structure ScoredCandidate where
  name : String
  confidence : ℚ
deriving DecidableEq, Repr

/-- The per-disease scoring body of `performAdvancedRuleBasedPrediction`
(`diseaseRoutes.js`, lines 30-69): base confidence plus weather and
seasonal contributions, clamped into `[0.1, 0.95]` by
`Math.max(Math.min(score, 0.95), 0.1)`. -/
def scoreDisease (cropType : String) (w? : Option WeatherReading) (d : DiseaseRecord) :
    ScoredCandidate :=
  let score := getBaseConfidence d.name cropType + getWeatherScore d w? + getSeasonalScore d w?
  { name := d.name, confidence := max (min score 0.95) 0.1 }

/-- Insertion step of the stable descending sort.  JavaScript
`sort((a, b) => b.confidence - a.confidence)` is a stable sort (ES2019)
ordering by descending confidence; an element is inserted before the first
element with confidence not above its own, so equal confidences keep their
original relative order. -/
def insertDesc (x : ScoredCandidate) : List ScoredCandidate → List ScoredCandidate
  | [] => [x]
  | y :: ys => if y.confidence ≤ x.confidence then x :: y :: ys else y :: insertDesc x ys

/-- Stable descending sort by confidence, modelling
`scoredDiseases.sort((a, b) => b.confidence - a.confidence)`
(`diseaseRoutes.js`, line 72). -/
def sortDesc : List ScoredCandidate → List ScoredCandidate
  | [] => []
  | x :: xs => insertDesc x (sortDesc xs)

/-- Score every candidate and sort by confidence descending
(`diseaseRoutes.js`, lines 30-72). -/
def scoreCandidates (cropType : String) (w? : Option WeatherReading)
    (ds : List DiseaseRecord) : List ScoredCandidate :=
  sortDesc (ds.map (scoreDisease cropType w?))

/-- The candidate list used by the scorer: the store result when non-empty,
else the static catalog (`diseaseRoutes.js`, lines 17-25). -/
def candidatesFor (cropType : String) (db : List DiseaseRecord) : List DiseaseRecord :=
  if db.isEmpty then getFallbackDiseases cropType else db

/-- An `(diseaseName, confidence)` pair of `alternativePredictions`. -/
structure AltPrediction where
  diseaseName : String
  confidence : ℚ
deriving DecidableEq, Repr

/-- The prediction object produced by the rule-based path or taken verbatim
from the external model body.  `method` is optional because an external
response body need not carry one. -/
structure PredictionResult where
  diseaseName : String
  confidence : ℚ
  alternativePredictions : List AltPrediction
  method : Option String
deriving DecidableEq, Repr

/-- `getFallbackPrediction` (`diseaseRoutes.js`, lines 244-259). -/
def getFallbackPrediction (cropType : String) : PredictionResult :=
  if jsToLower cropType = "tomato" then
    ⟨"Early Blight", 0.4, [], some "fallback"⟩
  else if jsToLower cropType = "rice" then
    ⟨"Rice Blast", 0.4, [], some "fallback"⟩
  else
    ⟨"General Plant Disease", 0.3, [], some "fallback"⟩

/-- `performAdvancedRuleBasedPrediction` (`diseaseRoutes.js`, lines 12-104).
The store read is passed in as `db`; `scoredDiseases.slice(1, 4)` is
`drop 1` then `take 3`.  The defensive `catch` of the JavaScript function
has no counterpart because every operation here is pure. -/
def performAdvancedRuleBasedPrediction (cropType : String) (w? : Option WeatherReading)
    (db : List DiseaseRecord) : PredictionResult :=
  match scoreCandidates cropType w? (candidatesFor cropType db) with
  | [] => getFallbackPrediction cropType
  | top :: rest =>
    { diseaseName := top.name
      confidence := top.confidence
      alternativePredictions := (rest.take 3).map fun d => ⟨d.name, d.confidence⟩
      method := some "enhanced_rule_based" }

/-- The body returned by a successful external model call
(`response.data`); `method` is whatever the remote service chose to put
there, if anything. -/
structure ExternalBody where
  diseaseName : String
  confidence : ℚ
  alternativePredictions : List AltPrediction
  method : Option String
deriving DecidableEq, Repr

/-- JavaScript `s.trim()`: strip leading and trailing whitespace. -/
def jsTrim (s : String) : String :=
  ⟨((s.data.dropWhile Char.isWhitespace).reverse.dropWhile Char.isWhitespace).reverse⟩

/-- The configuration guard
`aiModelUrl && aiModelUrl !== 'undefined' && aiModelUrl.trim() !== ''`
(`diseaseRoutes.js`, line 303): an unset or empty variable is falsy, the
literal string `undefined` and whitespace-only strings are rejected. -/
def isAiConfigured : Option String → Bool
  | none => false
  | some u => !(u == "") && !(u == "undefined") && !(jsTrim u == "")

/-- JavaScript `aiPrediction.method || 'rule_based'` from the response
builder (`diseaseRoutes.js`, line 384): a missing or empty method string
falls back to `rule_based`. -/
def jsOrMethod : Option String → String
  | none => "rule_based"
  | some m => if m = "" then "rule_based" else m

/-- Confidence-banded recommendation attached to the response
(`diseaseRoutes.js`, lines 389-397). -/
def confidenceRecommendation (c : ℚ) : String :=
  if c < 0.4 then
    "Very low confidence prediction. Strongly recommend consulting an agricultural expert."
  else if c < 0.6 then
    "Low confidence prediction. Consider consulting an expert for confirmation."
  else if c < 0.8 then
    "Moderate confidence prediction. Monitor closely and take preventive measures."
  else
    "High confidence prediction. Follow recommended treatment guidelines."

/-- The prediction-relevant core of the HTTP response built by
`predictDisease` (upload, persistence and display-only fields omitted). -/
structure PredictOutcome where
  diseaseName : String
  confidence : ℚ
  alternativePredictions : List AltPrediction
  predictionMethod : String
  recommendation : String
deriving DecidableEq, Repr

/-- Verbatim adoption of a successful external body
(`aiPrediction = response.data`). -/
def toPredictionResult (b : ExternalBody) : PredictionResult :=
  ⟨b.diseaseName, b.confidence, b.alternativePredictions, b.method⟩

/-- The decision core of the `predictDisease` handler (`diseaseRoutes.js`,
lines 299-320 and 360-397).  `aiModelUrl` is the environment setting and
`callResult` the outcome of the external `axios.post` (timeout, non-2xx and
network errors all collapse to `Except.error`); the call is consulted only
inside the configured branch, exactly as in the source. -/
def predictDisease (aiModelUrl : Option String) (callResult : Except Unit ExternalBody)
    (cropType : String) (w? : Option WeatherReading) (db : List DiseaseRecord) :
    PredictOutcome :=
  let aiPrediction :=
    if isAiConfigured aiModelUrl then
      match callResult with
      | .ok body => toPredictionResult body
      | .error _ => performAdvancedRuleBasedPrediction cropType w? db
    else
      performAdvancedRuleBasedPrediction cropType w? db
  { diseaseName := aiPrediction.diseaseName
    confidence := aiPrediction.confidence
    alternativePredictions := aiPrediction.alternativePredictions
    predictionMethod := jsOrMethod aiPrediction.method
    recommendation := confidenceRecommendation aiPrediction.confidence }

/-! ## Helper lemmas -/

lemma mem_insertDesc {a x : ScoredCandidate} : ∀ {l : List ScoredCandidate},
    a ∈ insertDesc x l ↔ a = x ∨ a ∈ l := by
  intro l
  induction l with
  | nil => simp [insertDesc]
  | cons y ys ih =>
    by_cases h : y.confidence ≤ x.confidence
    · simp [insertDesc, h]
    · simp only [insertDesc, if_neg h, List.mem_cons, ih]
      tauto

lemma insertDesc_perm (x : ScoredCandidate) (l : List ScoredCandidate) :
    List.Perm (insertDesc x l) (x :: l) := by
  induction l with
  | nil => exact List.Perm.refl _
  | cons y ys ih =>
    by_cases h : y.confidence ≤ x.confidence
    · simp only [insertDesc, if_pos h]
      exact List.Perm.refl _
    · simp only [insertDesc, if_neg h]
      exact (ih.cons y).trans (List.Perm.swap x y ys)

lemma insertDesc_pairwise (x : ScoredCandidate) : ∀ l : List ScoredCandidate,
    l.Pairwise (fun a b => b.confidence ≤ a.confidence) →
    (insertDesc x l).Pairwise (fun a b => b.confidence ≤ a.confidence) := by
  intro l
  induction l with
  | nil => intro _; simp [insertDesc]
  | cons y ys ih =>
    intro h
    rcases List.pairwise_cons.mp h with ⟨hy, hys⟩
    by_cases hc : y.confidence ≤ x.confidence
    · simp only [insertDesc, if_pos hc]
      refine List.pairwise_cons.mpr ⟨?_, h⟩
      intro b hb
      rcases List.mem_cons.mp hb with rfl | hb
      · exact hc
      · exact le_trans (hy b hb) hc
    · simp only [insertDesc, if_neg hc]
      refine List.pairwise_cons.mpr ⟨?_, ih hys⟩
      intro b hb
      rcases mem_insertDesc.mp hb with rfl | hb
      · exact (not_le.mp hc).le
      · exact hy b hb

lemma insertDesc_filter (c : ℚ) (x : ScoredCandidate) : ∀ l : List ScoredCandidate,
    (insertDesc x l).filter (fun s => decide (s.confidence = c))
      = ((x :: l).filter fun s => decide (s.confidence = c)) := by
  intro l
  induction l with
  | nil => rfl
  | cons y ys ih =>
    by_cases hc : y.confidence ≤ x.confidence
    · simp only [insertDesc, if_pos hc]
    · simp only [insertDesc, if_neg hc]
      by_cases hx : x.confidence = c
      · have hy : ¬ y.confidence = c := fun h =>
          hc (le_of_eq (h.trans hx.symm))
        simp [List.filter_cons, hx, hy, ih]
      · simp [List.filter_cons, hx, ih]

lemma sortDesc_perm : ∀ l : List ScoredCandidate, List.Perm (sortDesc l) l
  | [] => List.Perm.refl _
  | x :: xs => (insertDesc_perm x (sortDesc xs)).trans ((sortDesc_perm xs).cons x)

lemma sortDesc_pairwise : ∀ l : List ScoredCandidate,
    (sortDesc l).Pairwise (fun a b => b.confidence ≤ a.confidence)
  | [] => List.Pairwise.nil
  | x :: xs => insertDesc_pairwise x _ (sortDesc_pairwise xs)

lemma sortDesc_filter (c : ℚ) : ∀ l : List ScoredCandidate,
    (sortDesc l).filter (fun s => decide (s.confidence = c))
      = (l.filter fun s => decide (s.confidence = c))
  | [] => rfl
  | x :: xs => by
    simp only [sortDesc]
    rw [insertDesc_filter, List.filter_cons, List.filter_cons, sortDesc_filter c xs]

lemma scoreDisease_conf_lower (ct : String) (w? : Option WeatherReading) (d : DiseaseRecord) :
    (0.1 : ℚ) ≤ (scoreDisease ct w? d).confidence :=
  le_max_right _ _

lemma scoreDisease_conf_upper (ct : String) (w? : Option WeatherReading) (d : DiseaseRecord) :
    (scoreDisease ct w? d).confidence ≤ (0.95 : ℚ) :=
  max_le (min_le_right _ _) (by norm_num)

lemma getFallbackDiseases_not_empty (c : String) :
    (getFallbackDiseases c).isEmpty = false := by
  unfold getFallbackDiseases
  split
  · rfl
  · split <;> rfl

lemma candidatesFor_not_empty (c : String) (db : List DiseaseRecord) :
    (candidatesFor c db).isEmpty = false := by
  unfold candidatesFor
  cases hdb : db.isEmpty
  · simp [hdb]
  · simp [hdb, getFallbackDiseases_not_empty]

lemma scoreCandidates_candidates_ne_nil (ct : String) (w? : Option WeatherReading)
    (db : List DiseaseRecord) :
    scoreCandidates ct w? (candidatesFor ct db) ≠ [] := by
  intro h
  have hlen : (scoreCandidates ct w? (candidatesFor ct db)).length
      = (candidatesFor ct db).length :=
    (sortDesc_perm _).length_eq.trans (List.length_map _ _)
  rw [h] at hlen
  have hnil : candidatesFor ct db = [] := List.length_eq_zero.mp hlen.symm
  have hne := candidatesFor_not_empty ct db
  rw [hnil] at hne
  simp at hne

lemma perform_method (ct : String) (w? : Option WeatherReading) (db : List DiseaseRecord) :
    (performAdvancedRuleBasedPrediction ct w? db).method = some "enhanced_rule_based" := by
  unfold performAdvancedRuleBasedPrediction
  cases hs : scoreCandidates ct w? (candidatesFor ct db) with
  | nil => exact absurd hs (scoreCandidates_candidates_ne_nil ct w? db)
  | cons top rest => rfl

lemma jsOrMethod_enhanced : jsOrMethod (some "enhanced_rule_based") = "enhanced_rule_based" := by
  decide

lemma overallRisk_eq (w : WeatherReading) :
    (analyzeWeatherRisk w).overallRisk
      = if 2 < (firedRisks w).length then "high" else "medium" := by
  show (if (riskList w).length > 2 then "high"
        else if (riskList w).length > 0 then "medium" else "low") = _
  unfold riskList
  cases hf : firedRisks w with
  | nil => simp
  | cons a t => simp [Nat.succ_pos]

lemma overallRisk_ne_low (w : WeatherReading) :
    (analyzeWeatherRisk w).overallRisk ≠ "low" := by
  rw [overallRisk_eq]
  split <;> decide

lemma riskList_not_empty (w : WeatherReading) : (riskList w).isEmpty = false := by
  unfold riskList
  cases hf : firedRisks w <;> simp

/-! ## Claim theorems -/

/-- C1, counterexample: at the claimed scenario reading
`{temperature: 25, humidity: 50, condition: "Clear"}` no risk fires, yet
`analyzeWeatherRisk` reports `overallRisk = "medium"`, not the claimed
`"low"`, because the ternary counts the synthetic `optimal` entry that was
already pushed onto the `risks` array. -/
theorem C1_counterexample :
    (analyzeWeatherRisk ⟨25, 50, "Clear"⟩).overallRisk = "medium"
    ∧ (analyzeWeatherRisk ⟨25, 50, "Clear"⟩).risks = [optimalRisk]
    ∧ firedRisks ⟨25, 50, "Clear"⟩ = [] := by
  decide

/-- C1, amended: `overallRisk` is `"high"` iff more than 2 risk entries
fired and `"medium"` otherwise — also when zero entries fired, since the
synthetic `"optimal"` entry (level `"low"`) is included in the list before
the ternary runs, so `"low"` is never produced.  For the scenario reading
the result is `overallRisk = "medium"` with the single `optimal` entry and
the single recommendation string. -/
theorem C1_amended : ∀ w : WeatherReading,
    ((analyzeWeatherRisk w).overallRisk = "high" ↔ 2 < (firedRisks w).length)
    ∧ ((analyzeWeatherRisk w).overallRisk = "medium" ↔ (firedRisks w).length ≤ 2)
    ∧ (analyzeWeatherRisk ⟨25, 50, "Clear"⟩).overallRisk = "medium"
    ∧ (analyzeWeatherRisk ⟨25, 50, "Clear"⟩).risks = [optimalRisk]
    ∧ (analyzeWeatherRisk ⟨25, 50, "Clear"⟩).recommendations
        = ["Continue regular monitoring and care"] := by
  intro w
  refine ⟨?_, ?_, by decide, by decide, by decide⟩
  · rw [overallRisk_eq]
    by_cases h : 2 < (firedRisks w).length
    · simp [h]
    · simp [h]
  · rw [overallRisk_eq]
    by_cases h : 2 < (firedRisks w).length
    · simp [h, Nat.not_le.mpr h]
    · simp [h, Nat.not_lt.mp h]

/-- C10: the `risks` list of `analyzeWeatherRisk` is never empty and
`overallRisk` is never `"low"`, so the alert composer emits a
`current-weather` alert for every analyzed reading and `alertCount` is at
least 1, whatever the retrieval outcomes. -/
theorem C10_always_current_alert :
    (∀ w : WeatherReading,
      (analyzeWeatherRisk w).risks.isEmpty = false
      ∧ ((analyzeWeatherRisk w).overallRisk == "low") = false)
    ∧ ∀ (cur : Except Unit WeatherReading) (fc : Except Unit (List WeatherReading)),
        ((composeAgricultureAlerts cur fc).alerts.any fun a => a.type == "current-weather") = true
        ∧ 1 ≤ (composeAgricultureAlerts cur fc).alertCount := by
  constructor
  · intro w
    constructor
    · exact riskList_not_empty w
    · have h := overallRisk_ne_low w
      simp [h]
  · intro cur fc
    have h := overallRisk_ne_low (match cur with | .ok w => w | .error _ => fallbackCurrentWeather)
    constructor
    · simp only [composeAgricultureAlerts, if_pos h]
      simp
    · simp only [composeAgricultureAlerts, if_pos h]
      simp [List.length_append]

/-- C2: for every crop type, optional weather reading and candidate list,
the scored output has every confidence in `[0.10, 0.95]`, is sorted in
descending order of confidence, and ties preserve the order of the
original candidate list (for each confidence value, restricting the output
to that value gives exactly the corresponding restriction of the scored
list in knowledge-base order). -/
theorem C2_scorer_bounds_sorted_stable :
    ∀ (cropType : String) (w? : Option WeatherReading) (ds : List DiseaseRecord),
    ((scoreCandidates cropType w? ds).all fun s =>
        decide ((0.1 : ℚ) ≤ s.confidence) && decide (s.confidence ≤ (0.95 : ℚ))) = true
    ∧ (scoreCandidates cropType w? ds).Pairwise (fun a b => b.confidence ≤ a.confidence)
    ∧ ∀ c : ℚ, ((scoreCandidates cropType w? ds).filter fun s => decide (s.confidence = c))
        = ((ds.map (scoreDisease cropType w?)).filter fun s => decide (s.confidence = c)) := by
  intro cropType w? ds
  refine ⟨?_, sortDesc_pairwise _, fun c => sortDesc_filter c _⟩
  rw [List.all_eq_true]
  intro s hs
  have hmem : s ∈ ds.map (scoreDisease cropType w?) :=
    ((sortDesc_perm _).mem_iff).mp hs
  rcases List.mem_map.mp hmem with ⟨d, _, rfl⟩
  simp only [Bool.and_eq_true, decide_eq_true_eq]
  exact ⟨scoreDisease_conf_lower cropType w? d, scoreDisease_conf_upper cropType w? d⟩

/-- C3: the rule-based prediction has at most 3 alternatives, each with
confidence at most the primary confidence, the alternatives are ordered
descending by confidence, and every alternative disease name is the name
of a candidate produced for that crop type. -/
theorem C3_alternatives_invariant :
    ∀ (cropType : String) (w? : Option WeatherReading) (db : List DiseaseRecord),
    (performAdvancedRuleBasedPrediction cropType w? db).alternativePredictions.length ≤ 3
    ∧ ((performAdvancedRuleBasedPrediction cropType w? db).alternativePredictions.all fun a =>
        decide (a.confidence ≤ (performAdvancedRuleBasedPrediction cropType w? db).confidence)) = true
    ∧ (performAdvancedRuleBasedPrediction cropType w? db).alternativePredictions.Pairwise
        (fun a b => b.confidence ≤ a.confidence)
    ∧ ((performAdvancedRuleBasedPrediction cropType w? db).alternativePredictions.all fun a =>
        ((candidatesFor cropType db).map DiseaseRecord.name).contains a.diseaseName) = true := by
  intro cropType w? db
  have hpair : (scoreCandidates cropType w? (candidatesFor cropType db)).Pairwise
      (fun a b => b.confidence ≤ a.confidence) := sortDesc_pairwise _
  unfold performAdvancedRuleBasedPrediction
  cases hs : scoreCandidates cropType w? (candidatesFor cropType db) with
  | nil => exact absurd hs (scoreCandidates_candidates_ne_nil cropType w? db)
  | cons top rest =>
    rw [hs] at hpair
    rcases List.pairwise_cons.mp hpair with ⟨htop, hrest⟩
    have hmem_names : ∀ s ∈ rest, s.name ∈ (candidatesFor cropType db).map DiseaseRecord.name := by
      intro s hsr
      have hscored : s ∈ scoreCandidates cropType w? (candidatesFor cropType db) := by
        rw [hs]; exact List.mem_cons_of_mem top hsr
      have hmapped : s ∈ (candidatesFor cropType db).map (scoreDisease cropType w?) :=
        ((sortDesc_perm _).mem_iff).mp hscored
      rcases List.mem_map.mp hmapped with ⟨d, hd, rfl⟩
      exact List.mem_map_of_mem DiseaseRecord.name hd
    refine ⟨?_, ?_, ?_, ?_⟩
    · simp only [List.length_map]
      exact List.length_take_le 3 rest
    · rw [List.all_eq_true]
      intro a ha
      rcases List.mem_map.mp ha with ⟨s, hst, rfl⟩
      have hsr : s ∈ rest := List.take_subset 3 rest hst
      simpa using htop s hsr
    · refine List.pairwise_map.mpr ?_
      exact List.Pairwise.sublist (List.take_sublist 3 rest) hrest
    · rw [List.all_eq_true]
      intro a ha
      rcases List.mem_map.mp ha with ⟨s, hst, rfl⟩
      have hsr : s ∈ rest := List.take_subset 3 rest hst
      exact List.elem_eq_true_of_mem (hmem_names s hsr)

/-- C5: for every current reading and forecast list, exactly one
`forecast-warning` alert (severity `medium`) is emitted when some entry of
the first 24 forecast entries is assessed `overallRisk = "high"` by
`analyzeWeatherRisk`, and none otherwise — a presence check, never more
than one alert. -/
theorem C5_forecast_warning :
    ∀ (cur : WeatherReading) (fc : List WeatherReading),
    ((composeAgricultureAlerts (.ok cur) (.ok fc)).alerts.countP fun a =>
        a.type == "forecast-warning")
      = (if (fc.take 24).any (fun w => (analyzeWeatherRisk w).overallRisk == "high")
         then 1 else 0)
    ∧ ((composeAgricultureAlerts (.ok cur) (.ok fc)).alerts.all fun a =>
        (a.type != "forecast-warning") || (a.severity == "medium")) = true := by
  intro cur fc
  have h := overallRisk_ne_low cur
  constructor
  · simp only [composeAgricultureAlerts, if_pos h]
    cases hany : (fc.take 24).any (fun w => (analyzeWeatherRisk w).overallRisk == "high") <;>
      simp [hany, List.countP_append, List.countP_cons]
  · simp only [composeAgricultureAlerts, if_pos h]
    cases hany : (fc.take 24).any (fun w => (analyzeWeatherRisk w).overallRisk == "high") <;>
      simp [hany]

/-- C9: the public entry points degrade instead of failing — a failed
current-weather retrieval is replaced by the conservative default reading
(25 °C, 60 %, Clear), a failed forecast retrieval yields the empty
forecast and hence no `forecast-warning` alert, the composed result is
always structurally valid (`alertCount` equals the number of alerts), and
a failed external model call still yields a rule-based prediction tagged
`enhanced_rule_based`. -/
theorem C9_graceful_degradation :
    (∀ fc : Except Unit (List WeatherReading),
      composeAgricultureAlerts (.error ()) fc
        = composeAgricultureAlerts (.ok fallbackCurrentWeather) fc)
    ∧ (∀ cur : Except Unit WeatherReading,
        ((composeAgricultureAlerts cur (.error ())).alerts.all fun a =>
          a.type != "forecast-warning") = true)
    ∧ (∀ (cur : Except Unit WeatherReading) (fc : Except Unit (List WeatherReading)),
        (composeAgricultureAlerts cur fc).alertCount
          = (composeAgricultureAlerts cur fc).alerts.length)
    ∧ (∀ (url : Option String) (cropType : String) (w? : Option WeatherReading)
        (db : List DiseaseRecord),
        (predictDisease url (.error ()) cropType w? db).predictionMethod
          = "enhanced_rule_based") := by
  refine ⟨fun fc => rfl, ?_, fun cur fc => rfl, ?_⟩
  · intro cur
    have h := overallRisk_ne_low (match cur with | .ok w => w | .error _ => fallbackCurrentWeather)
    simp only [composeAgricultureAlerts, if_pos h]
    simp
  · intro url cropType w? db
    unfold predictDisease
    cases hc : isAiConfigured url <;>
      simp [hc, perform_method, jsOrMethod_enhanced]

/-- C4, counterexample: with a configured endpoint and a successful
external call whose body carries no `method` field, the surfaced
provenance is `aiPrediction.method || 'rule_based'`, i.e. `"rule_based"` —
the string `"external_model"` is never produced by the code. -/
theorem C4_counterexample :
    (predictDisease (some "http://model.example.com")
        (.ok ⟨"Leaf Rust", 0.9, [], none⟩) "tomato" none []).predictionMethod = "rule_based"
    ∧ ((predictDisease (some "http://model.example.com")
        (.ok ⟨"Leaf Rust", 0.9, [], none⟩) "tomato" none []).predictionMethod
          == "external_model") = false := by
  constructor <;> decide

/-- C4, amended: the external model is consulted only when the endpoint is
configured (with no configured endpoint the call outcome is ignored); on
success the returned diagnosis is adopted verbatim with provenance equal
to the external body's own `method` field defaulted to `"rule_based"`; on
any failure the rule-based result is returned with method
`enhanced_rule_based`, never surfacing the failure. -/
theorem C4_amended :
    ∀ (url : Option String) (r : Except Unit ExternalBody) (body : ExternalBody)
      (cropType : String) (w? : Option WeatherReading) (db : List DiseaseRecord),
    (predictDisease url r cropType w? db
      = if isAiConfigured url then predictDisease url r cropType w? db
        else predictDisease url (Except.error ()) cropType w? db)
    ∧ (predictDisease url (.ok body) cropType w? db
      = if isAiConfigured url then
          { diseaseName := body.diseaseName
            confidence := body.confidence
            alternativePredictions := body.alternativePredictions
            predictionMethod := jsOrMethod body.method
            recommendation := confidenceRecommendation body.confidence }
        else predictDisease url (Except.error ()) cropType w? db)
    ∧ (predictDisease url (Except.error ()) cropType w? db).predictionMethod
        = "enhanced_rule_based"
    ∧ (predictDisease url (Except.error ()) cropType w? db).diseaseName
        = (performAdvancedRuleBasedPrediction cropType w? db).diseaseName := by
  intro url r body cropType w? db
  refine ⟨?_, ?_, ?_, ?_⟩
  · cases hc : isAiConfigured url <;> simp [predictDisease, hc]
  · cases hc : isAiConfigured url <;>
      simp [predictDisease, hc, toPredictionResult]
  · unfold predictDisease
    cases hc : isAiConfigured url <;>
      simp [hc, perform_method, jsOrMethod_enhanced]
  · unfold predictDisease
    cases hc : isAiConfigured url <;> simp [hc]

section
attribute [local semireducible] Rat.add Rat.mul Rat.inv Rat.ofScientific Rat.sub

/-- C6: for tomato with reading `{temperature: 18, humidity: 90,
condition: "Rain"}` over the static tomato catalog, Late Blight is the
top candidate, the cool-wet rule contributes `+0.20`, and its final
confidence `0.9` exceeds `0.75` (base `0.55` plus weather bonus) while
staying at most `0.95`. -/
theorem C6_tomato_late_blight :
    (performAdvancedRuleBasedPrediction "tomato" (some ⟨18, 90, "Rain"⟩) []).diseaseName
        = "Late Blight"
    ∧ candidatesFor "tomato" [] = [earlyBlightEntry, lateBlightEntry, bacterialSpeckEntry]
    ∧ coolWetScore lateBlightEntry ⟨18, 90, "Rain"⟩ = 0.2
    ∧ getBaseConfidence "Late Blight" "tomato" = 0.55
    ∧ (performAdvancedRuleBasedPrediction "tomato" (some ⟨18, 90, "Rain"⟩) []).confidence = 0.9
    ∧ (0.75 : ℚ) ≤ (performAdvancedRuleBasedPrediction "tomato"
        (some ⟨18, 90, "Rain"⟩) []).confidence
    ∧ (performAdvancedRuleBasedPrediction "tomato"
        (some ⟨18, 90, "Rain"⟩) []).confidence ≤ 0.95 := by
  refine ⟨by decide, by decide, by decide, by decide, by decide, by decide, by decide⟩

/-- C7: the candidate list is never empty (store result when non-empty,
static catalog otherwise); any crop type outside the static catalog gets
the single generic entry; and for `unknown_crop` with an empty store and
no weather, predict returns `General Plant Disease` with confidence
`0.35 ∈ [0.1, 0.4]` and method `enhanced_rule_based`. -/
theorem C7_fallback_chain :
    (∀ (cropType : String) (db : List DiseaseRecord),
      (candidatesFor cropType db).isEmpty = false)
    ∧ (∀ cropType : String, jsToLower cropType = "tomato" ∨ jsToLower cropType = "rice" ∨
        getFallbackDiseases cropType = [generalDiseaseEntry])
    ∧ (predictDisease none (.error ()) "unknown_crop" none []).diseaseName
        = "General Plant Disease"
    ∧ (predictDisease none (.error ()) "unknown_crop" none []).predictionMethod
        = "enhanced_rule_based"
    ∧ (predictDisease none (.error ()) "unknown_crop" none []).confidence = 0.35
    ∧ (0.1 : ℚ) ≤ (predictDisease none (.error ()) "unknown_crop" none []).confidence
    ∧ (predictDisease none (.error ()) "unknown_crop" none []).confidence ≤ 0.4 := by
  refine ⟨candidatesFor_not_empty, ?_, by decide, by decide, by decide, by decide, by decide⟩
  intro cropType
  by_cases h1 : jsToLower cropType = "tomato"
  · exact Or.inl h1
  by_cases h2 : jsToLower cropType = "rice"
  · exact Or.inr (Or.inl h2)
  refine Or.inr (Or.inr ?_)
  unfold getFallbackDiseases
  rw [if_neg h1, if_neg h2]

end

/-- Spec-transcribed recommendation mapping for the refinement comparison
of claim C8: the fixed per-risk-type recommendation strings exactly as the
specification lists them, with an empty default outside the six listed
risk types. -/
def specRecommendationFor (t : String) : List String :=
  if t = "high-humidity" then
    ["Ensure good air circulation around plants",
     "Avoid overhead watering",
     "Apply preventive fungicide if necessary"]
  else if t = "heat-stress" then
    ["Provide shade during hottest parts of the day",
     "Increase watering frequency",
     "Monitor for increased pest activity"]
  else if t = "cold-stress" then
    ["Protect plants from frost",
     "Reduce watering frequency",
     "Consider using row covers"]
  else if t = "wet-conditions" then
    ["Improve drainage around plants",
     "Remove infected plant material promptly",
     "Apply preventive copper-based fungicides"]
  else if t = "drought-stress" then
    ["Increase irrigation frequency",
     "Apply mulch to conserve soil moisture",
     "Monitor for spider mites and aphids"]
  else if t = "optimal" then
    ["Continue regular monitoring and care"]
  else []

/-- C8: for every list of fired risks (whose types come from the analyzer,
i.e. are among the six known risk types), the recommendations equal the
concatenation of the fixed per-type recommendation strings of the
specification mapping, deduplicated preserving first-seen order. -/
theorem C8_recommendations (risks : List RiskEntry)
    (h : ∀ r ∈ risks, r.type ∈ (["high-humidity", "heat-stress", "cold-stress",
        "wet-conditions", "drought-stress", "optimal"] : List String)) :
    generateWeatherRecommendations risks
      = dedupFirst [] (risks.flatMap fun r => specRecommendationFor r.type) := by
  unfold generateWeatherRecommendations
  have hmap : (risks.flatMap fun r => switchRecommendationsFor r.type)
      = risks.flatMap fun r => specRecommendationFor r.type := by
    induction risks with
    | nil => rfl
    | cons r rs ih =>
      have hr := h r (List.mem_cons_self r rs)
      have hrs := fun x hx => h x (List.mem_cons_of_mem r hx)
      simp only [List.flatMap_cons, ih hrs]
      congr 1
      simp only [List.mem_cons, List.not_mem_nil, or_false] at hr
      rcases hr with h | h | h | h | h | h <;> rw [h] <;> decide
  rw [hmap]

/-- C8 witness: the theorem applied to a concrete fired-risk list. -/
theorem C8_recommendations_witness :
    (∀ r ∈ ([highHumidityRisk, wetConditionsRisk] : List RiskEntry),
      r.type ∈ (["high-humidity", "heat-stress", "cold-stress",
        "wet-conditions", "drought-stress", "optimal"] : List String))
    ∧ generateWeatherRecommendations [highHumidityRisk, wetConditionsRisk]
      = dedupFirst [] (([highHumidityRisk, wetConditionsRisk] : List RiskEntry).flatMap
          fun r => specRecommendationFor r.type) :=
  ⟨by decide, C8_recommendations [highHumidityRisk, wetConditionsRisk] (by decide)⟩

end CropDisease
